import Mathlib

/-!
Verification development for the "Decor Store" backend (modern application).
Each definition is a shallow embedding of the corresponding Python function:
  - `app/core/state_machine.py`   : `StateMachine`, `can_transition`, `apply`
  - `app/services/payment.py`     : `process_payment` (and the spec-modelled
                                    `process_refund`, which the order routes pull
                                    in but which is absent from the tree)
  - `app/models/cart.py`          : `Cart.add_item`
  - `app/api/routes/orders.py`    : `create_order` inventory reservation,
                                    `transition_order_status`
  - `app/api/routes/auth.py`      : `register`, `refresh`
  - `app/utils/images.py`         : `delete_product_image`
  - `app/api/routes/products.py`  : `delete_product_image_route`
Strings stay `String`, machine integers stay `Int`, monetary floats are
modelled as `Rat` (every literal appearing in the code and tests is exactly
representable), tables are lists of rows, and raised `HTTPException`s are
explicit result constructors carrying the HTTP status code.
-/

/-- Python `str.strip()` restricted to the ASCII whitespace that actually
occurs in this code base (state names and payment fields are ASCII). -/
def pyStripChar (c : Char) : Bool :=
  c == ' ' || c == '\t' || c == '\n' || c == '\r'

/-- Python `s.strip()`: drop whitespace from both ends. -/
def pyStrip (s : String) : String :=
  ⟨((s.toList.dropWhile pyStripChar).reverse.dropWhile pyStripChar).reverse⟩

/-- Python `str(x).endswith("0")` for a one-character suffix. -/
def endsWithChar (s : String) (c : Char) : Bool :=
  match s.toList.reverse with
  | [] => false
  | d :: _ => d == c

/-- `starts_with_list pat cs` is true iff `pat` is a leading segment of `cs`
(used for `pathlib.Path.glob("{stem}*")`). -/
def starts_with_list : List Char → List Char → Bool
  | [], _ => true
  | _ :: _, [] => false
  | p :: ps, c :: cs => p == c && starts_with_list ps cs

/-- Python `name.startswith(pat)` / `glob("{pat}*")` membership test. -/
def strStartsWith (s pat : String) : Bool :=
  starts_with_list pat.toList s.toList

/-- First-match association-list lookup, the shallow embedding of reading a
Python `dict` built from unique keys (`allowed_transitions.get(state)`). -/
def alistGet : List (String × List String) → String → Option (List String)
  | [], _ => none
  | (k, v) :: rest, key => if k = key then some v else alistGet rest key

/-! ## `app/core/state_machine.py` -/

/-- One entry of `StateMachine.history`: the dict
`{"from": ..., "to": ..., "at": now, "actor": ..., "meta": ...}`. -/
structure HistoryEntry where
  fromState : String
  toState : String
  atTime : String
  actor : Option String
  meta : List (String × String)
deriving DecidableEq, Repr

/-- A hook observes the history entry and may fail; `_invoke_hook` swallows
the failure (`except Exception: pass`), so the outcome is discarded. -/
def Hook := HistoryEntry → Except String Unit

/-- `StateMachine.__init__`: state, allowed-transitions map, version
(`int(version or 0)`), history, and before/after hooks keyed by the exact
`(from_state, to_state)` edge. -/
structure StateMachine where
  state : String
  allowed_transitions : List (String × List String)
  version : Int
  history : List HistoryEntry
  before_hooks : List ((String × String) × Hook)
  after_hooks : List ((String × String) × Hook)

/-- `StateMachine.can_transition`: `to_state in self.allowed_transitions.get(self.state, [])`. -/
def StateMachine.can_transition (sm : StateMachine) (to_state : String) : Bool :=
  ((alistGet sm.allowed_transitions sm.state).getD []).contains to_state

/-- Hook lookup keyed by the `(from, to)` edge pair. -/
def hookFor : List ((String × String) × Hook) → String → String → Option Hook
  | [], _, _ => none
  | ((k, v)) :: rest, f, t => if k = (f, t) then some v else hookFor rest f t

/-- `StateMachine._invoke_hook`: run the hook if registered and swallow any
failure; the caller observes nothing. -/
def invoke_hook (hooks : List ((String × String) × Hook)) (from_state to_state : String)
    (entry : HistoryEntry) : Unit :=
  match hookFor hooks from_state to_state with
  | none => ()
  | some fn => match fn entry with
    | .ok _ => ()
    | .error _ => ()

/-- The two exception classes raised by `StateMachine.apply`. -/
inductive ApplyError where
  | invalidTransition (msg : String)
  | optimisticLock (msg : String)
deriving DecidableEq, Repr

/-- The dict returned by `StateMachine.apply`:
`{"state": ..., "history": ..., "version": ...}`. -/
structure ApplyResult where
  state : String
  history : List HistoryEntry
  version : Int
deriving DecidableEq, Repr

/-- `expected_version is not None and int(expected_version) != int(self.version)`. -/
def versionMismatch (expected_version : Option Int) (version : Int) : Bool :=
  match expected_version with
  | none => false
  | some ev => ev != version

/-- `StateMachine.apply`.  The returned machine is the post-call object state:
every raise happens before any field assignment, so on error it equals the
input machine.  `meta` is `dict(meta or {})`. -/
def StateMachine.apply (sm : StateMachine) (to_state : String) (actor : Option String)
    (meta : Option (List (String × String))) (expected_version : Option Int)
    (now : String) : StateMachine × Except ApplyError ApplyResult :=
  let t := pyStrip to_state
  if t = "" then
    (sm, .error (.invalidTransition "Empty target state"))
  else if versionMismatch expected_version sm.version then
    (sm, .error (.optimisticLock "Version mismatch"))
  else if t = sm.state then
    (sm, .ok ⟨sm.state, sm.history, sm.version⟩)
  else if sm.can_transition t then
    let entry : HistoryEntry := ⟨sm.state, t, now, actor, meta.getD []⟩
    let _ := invoke_hook sm.before_hooks sm.state t entry
    let sm' : StateMachine :=
      { sm with state := t, history := sm.history ++ [entry], version := sm.version + 1 }
    let _ := invoke_hook sm.after_hooks sm.state t entry
    (sm', .ok ⟨sm'.state, sm'.history, sm'.version⟩)
  else
    (sm, .error (.invalidTransition "Invalid transition"))

/-- `Order.ALLOWED_TRANSITIONS` from `app/models/order.py`. -/
def orderAllowedTransitions : List (String × List String) :=
  [("placed", ["paid", "cancelled"]),
   ("paid", ["shipped", "cancelled", "refunded"]),
   ("shipped", ["delivered", "returned"]),
   ("delivered", []),
   ("cancelled", []),
   ("refunded", []),
   ("returned", [])]

/-! ## `app/services/payment.py` -/

/-- The dict returned by `process_payment`. -/
structure PayResult where
  success : Bool
  transaction_id : String
  amount : Rat
  message : String
deriving DecidableEq, Repr

/-- The `payment_method` dict: `.get("type", "mock")` and
`.get("card_last4", "")` model absent keys as `none`. -/
structure PaymentMethod where
  pm_type : Option String
  card_last4 : Option String
deriving DecidableEq, Repr

/-- `process_payment(amount, payment_method)`; `txid` stands for the freshly
generated `f"tx_{uuid4...}"`.  A raised `PaymentError` is `.error`. -/
def process_payment (amount : Option Rat) (payment_method : Option PaymentMethod)
    (txid : String) : Except String PayResult :=
  match amount with
  | none => .error "invalid amount"
  | some a =>
    if a ≤ 0 then .error "invalid amount"
    else
      let pm_type := match payment_method with
        | none => "mock"
        | some pm => pm.pm_type.getD "mock"
      if pm_type = "card" then
        let last4 := match payment_method with
          | none => ""
          | some pm => pm.card_last4.getD ""
        if endsWithChar last4 '0' then
          .ok ⟨false, txid, a, "card declined"⟩
        else
          .ok ⟨true, txid, a, "approved (mock)"⟩
      else if pm_type = "offline" then
        .ok ⟨true, txid, a, "marked pending (offline)"⟩
      else
        .ok ⟨true, txid, a, "mock success"⟩

/-- The result shape of the refund gateway call. -/
structure RefundResult where
  success : Bool
  transaction_id : Option String
  amount : Rat
deriving DecidableEq, Repr

/-- Modelled from the spec: `process_refund` is imported by
`app/api/routes/orders.py` from `app.services.payment` but no definition
exists anywhere in the source tree.  Spec §4.7: "`processRefund(amount,
info)`: fails (`success=false`) if `info` carries no `transactionId`;
otherwise always succeeds, returning a freshly generated refund transaction
id."  `gen_tx` stands for that freshly generated id. -/
def process_refund (amount : Rat) (transactionId : Option String)
    (gen_tx : String) : RefundResult :=
  match transactionId with
  | none => ⟨false, none, amount⟩
  | some _ => ⟨true, some gen_tx, amount⟩

/-! ## `app/models/cart.py` -/

/-- `CartItem` dataclass. -/
structure CartItem where
  product_id : String
  title : Option String
  unit_price : Rat
  quantity : Int
  added_at : Option String
deriving DecidableEq, Repr

/-- `Cart` dataclass. -/
structure Cart where
  id : Option String
  user_id : Option String
  items : List CartItem
  updated_at : Option String
deriving DecidableEq, Repr

/-- The loop body of `Cart.add_item`: mutate the first item whose
`product_id` matches (only its `quantity` field), else append a fresh
`CartItem` built from the call's arguments. -/
def addToItems (pid : String) (title : String) (unit_price : Rat) (qty : Int) :
    List CartItem → List CartItem
  | [] => [⟨pid, some title, unit_price, qty, none⟩]
  | it :: rest =>
    if it.product_id = pid then
      { it with quantity := it.quantity + qty } :: rest
    else
      it :: addToItems pid title unit_price qty rest

/-- `Cart.add_item(product_id, title, unit_price, quantity)`. -/
def Cart.add_item (c : Cart) (pid : String) (title : String) (unit_price : Rat)
    (qty : Int) : Cart :=
  { c with items := addToItems pid title unit_price qty c.items }

/-! ## `app/api/routes/orders.py` — order creation with inventory reservation -/

/-- A row of the `products` table as the reservation loop reads it: the `id`
and `product_id` columns (absent cell = empty text) and the coerced integer
`stock`. -/
structure Product where
  id : String
  product_id : String
  stock : Int
deriving DecidableEq, Repr

/-- One inline order item after pydantic validation (`quantity`/`unit_price`
normalization from the route is reflected by the typed fields). -/
structure OrderItemIn where
  product_id : Option String
  title : Option String
  unit_price : Rat
  quantity : Int
deriving DecidableEq, Repr

/-- `db.get_record("products", "id", pid) or db.get_record("products",
"product_id", pid)`: first row keyed by `id`, else first keyed by
`product_id`. -/
def findProduct (ps : List Product) (pid : String) : Option Product :=
  match ps.find? (fun p => p.id == pid) with
  | some p => some p
  | none => ps.find? (fun p => p.product_id == pid)

/-- `db.update_record("products", "id", pid, {"stock": v})`: `none` when no
row matches (the route treats that as a persistence failure), otherwise the
table with every matching row's `stock` overwritten. -/
def updateStock (ps : List Product) (pid : String) (v : Int) : Option (List Product) :=
  if ps.any (fun p => p.id == pid) then
    some (ps.map (fun p => if p.id == pid then { p with stock := v } else p))
  else
    none

/-- One entry of the route's `reserved` list:
`{"id": pid, "qty": qty, "prev_stock": stock}`. -/
structure Reserved where
  id : String
  qty : Int
  prev_stock : Int
deriving DecidableEq, Repr

/-- The rollback loop `for r in reserved: db.update_record("products", "id",
r["id"], {"stock": r["prev_stock"]})` — in list order, results ignored. -/
def rollbackReserved (reserved : List Reserved) (ps : List Product) : List Product :=
  reserved.foldl
    (fun acc r =>
      match updateStock acc r.id r.prev_stock with
      | some ps' => ps'
      | none => acc)
    ps

/-- Outcome of the reservation loop, carrying the products table as the loop
leaves it. -/
inductive ReserveOutcome where
  | ok (products : List Product) (reserved : List Reserved)
  | badRequest (detail : String) (products : List Product)
  | serverError (detail : String) (products : List Product)
deriving DecidableEq, Repr

/-- The `for it in items_payload` reservation loop of `create_order`.  Note:
the `product_id required` raise happens inside the `try` but is re-raised by
`except HTTPException: raise` without rollback, exactly as in the source. -/
def reserveItems : List OrderItemIn → List Product → List Reserved → ReserveOutcome
  | [], ps, rs => .ok ps rs
  | it :: rest, ps, rs =>
    match it.product_id with
    | none => .badRequest "product_id required for each item" ps
    | some pid =>
      match findProduct ps pid with
      | none => reserveItems rest ps rs
      | some prod =>
        let stock := prod.stock
        if stock < it.quantity then
          .badRequest ("Insufficient stock for product " ++ pid) (rollbackReserved rs ps)
        else
          match updateStock ps pid (stock - it.quantity) with
          | none =>
            .serverError ("Failed to reserve inventory for product " ++ pid)
              (rollbackReserved rs ps)
          | some ps' => reserveItems rest ps' (rs ++ [⟨pid, it.quantity, stock⟩])

/-- `_compute_total_from_items`. -/
def computeTotal (items : List OrderItemIn) : Rat :=
  items.foldl (fun acc it => acc + it.unit_price * (it.quantity : Rat)) 0

/-- The order record built by `create_order` on success (the fields the
claims talk about). -/
structure OrderRec where
  user_id : String
  items : List OrderItemIn
  total_amount : Rat
  status : String
  shipping_address : String
deriving DecidableEq, Repr

/-- Response of `POST /api/orders` (inline-items path), paired with the
products table after the request. -/
inductive CreateOrderResp where
  | created (order : OrderRec) (products : List Product)
  | invalidInput (detail : String) (products : List Product)
  | serverError (detail : String) (products : List Product)
deriving DecidableEq, Repr

/-- `create_order` for an inline item list: empty-items check, total
computation, inventory reservation, then persistence of the order with
status `"placed"` (in the pure model `db.create_record` always returns the
row, as it does in the source, so the persist-failure branch is
unreachable here). -/
def create_order (items : List OrderItemIn) (ps : List Product) (username : String)
    (shipping_address : String) : CreateOrderResp :=
  if items.isEmpty then
    .invalidInput "Order must contain at least one item" ps
  else
    let total := computeTotal items
    match reserveItems items ps [] with
    | .badRequest d ps' => .invalidInput d ps'
    | .serverError d ps' => .serverError d ps'
    | .ok ps' _ => .created ⟨username, items, total, "placed", shipping_address⟩ ps'

/-! ## `app/api/routes/orders.py` — `POST /api/orders/{id}/transition` -/

/-- A stored order row as `transition_order_status` reads it, with the
JSON-text `status_history` column already decoded to its list shape (the
round-trip through `json.dumps`/`json.loads` is the identity on these
records). -/
structure OrderRow where
  id : String
  user_id : String
  status : String
  status_history : List HistoryEntry
  version : Int
deriving Repr

/-- The authenticated caller: username plus the normalized `is_admin` flag. -/
structure UserCtx where
  username : String
  is_admin : Bool
deriving DecidableEq, Repr

/-- Response of the transition endpoint: the updated first row, or an
`HTTPException` with its status code. -/
inductive TransitionResp where
  | ok (order : OrderRow)
  | err (status : Nat) (detail : String)
deriving Repr

/-- `db.update_record("orders", "id", order_id, {status, status_history,
version})`: `none` when no row matches, else the first matching row
post-update and the rewritten table. -/
def updateOrders (orders : List OrderRow) (order_id : String) (st : String)
    (hist : List HistoryEntry) (ver : Int) : Option (OrderRow × List OrderRow) :=
  match orders.find? (fun r => r.id == order_id) with
  | none => none
  | some row =>
    some ({ row with status := st, status_history := hist, version := ver },
      orders.map (fun r =>
        if r.id == order_id then { r with status := st, status_history := hist, version := ver }
        else r))

/-- `transition_order_status`: empty-status check, order lookup by `id`,
owner-or-admin authorization, `Order.from_dict` + `transition_to` (a fresh
`StateMachine` seeded with the row's status/history/version and
`Order.ALLOWED_TRANSITIONS`, no hooks), then persistence. -/
def transition_order_status (orders : List OrderRow) (order_id : String) (user : UserCtx)
    (payload_status : String) (meta : Option (List (String × String)))
    (expected_version : Option Int) (now : String) : TransitionResp × List OrderRow :=
  let new_status := pyStrip payload_status
  if new_status = "" then
    (.err 400 "status required", orders)
  else
    match orders.find? (fun r => r.id == order_id) with
    | none => (.err 404 "Order not found", orders)
    | some row =>
      if !user.is_admin && row.user_id != user.username then
        (.err 403 "Not allowed to transition this order", orders)
      else
        let sm : StateMachine :=
          ⟨row.status, orderAllowedTransitions, row.version, row.status_history, [], []⟩
        match (sm.apply new_status (some user.username) meta expected_version now).2 with
        | .error (.invalidTransition d) => (.err 400 d, orders)
        | .error (.optimisticLock d) => (.err 409 d, orders)
        | .ok res =>
          match updateOrders orders order_id res.state res.history res.version with
          | none => (.err 500 "Failed to persist order update", orders)
          | some (first, orders') => (.ok first, orders')

/-! ## `app/api/routes/auth.py` — `register` and `refresh` -/

/-- A row of the `users` table as `register` writes it (`full_name=None` is
normalized to empty text by `create_record`). -/
structure UserRow where
  id : String
  username : String
  email : String
  password_hash : String
  full_name : String
  is_admin : Bool
deriving DecidableEq, Repr

/-- Response of `POST /api/auth/register`. -/
inductive RegisterResp where
  | ok (u : UserRow)
  | invalidInput (detail : String)
deriving DecidableEq, Repr

/-- `register`: requires truthy username, email and password (`None` or empty
text are falsy), hashes the password, and appends the row — there is no
duplicate username/email check anywhere in the handler.  `gen_id` stands for
the uuid `create_record` generates. -/
def register (users : List UserRow) (username email password : Option String)
    (full_name : Option String) (is_admin : Bool) (hash_fn : String → String)
    (gen_id : String) : RegisterResp × List UserRow :=
  match username, email, password with
  | some u, some e, some p =>
    if u = "" || p = "" || e = "" then
      (.invalidInput "username, email and password required", users)
    else
      let row : UserRow := ⟨gen_id, u, e, hash_fn p, full_name.getD "", is_admin⟩
      (.ok row, users ++ [row])
  | _, _, _ => (.invalidInput "username, email and password required", users)

/-- A row of the `refresh_tokens` table; `expires_at` is the parsed expiry
instant (`none` = absent/unparsable, which `_is_refresh_expired` treats as
expired), and instants are modelled as integers compared like datetimes. -/
structure RefreshRow where
  id : String
  token : String
  user_id : String
  expires_at : Option Int
deriving DecidableEq, Repr

/-- `_is_refresh_expired`: missing/unparsable `expires_at` is expired,
otherwise expired iff `utcnow() > expires_at`. -/
def is_refresh_expired (row : RefreshRow) (now : Int) : Bool :=
  match row.expires_at with
  | none => true
  | some e => now > e

/-- Response of `POST /api/auth/refresh`. -/
inductive RefreshResp where
  | ok (access_token refresh_token : String)
  | unauthorized (detail : String)
deriving DecidableEq, Repr

/-- `refresh`: `token` is the value resolved from JSON body / form / cookie
(`none` when all three are missing, and empty text is falsy too).  On a
valid, non-expired record the consumed row is deleted (all rows with that
token, as `delete_record` does) and a fresh record is appended.  `new_id`,
`new_token`, `new_access` and `new_expires` stand for the generated uuid,
`secrets.token_urlsafe(32)`, the signed JWT, and `now + 30 days`. -/
def refresh (table : List RefreshRow) (token : Option String) (now : Int)
    (new_id new_token new_access : String) (new_expires : Int) :
    RefreshResp × List RefreshRow :=
  match token with
  | none => (.unauthorized "Refresh token required", table)
  | some t =>
    if t = "" then
      (.unauthorized "Refresh token required", table)
    else
      match table.find? (fun r => r.token == t) with
      | none => (.unauthorized "Invalid refresh token", table)
      | some row =>
        if is_refresh_expired row now then
          (.unauthorized "Refresh token expired", table.filter (fun r => r.token != t))
        else if row.user_id = "" then
          (.unauthorized "Invalid refresh token owner", table)
        else
          let cleaned := table.filter (fun r => r.token != t)
          (.ok new_access new_token,
            cleaned ++ [⟨new_id, new_token, row.user_id, some new_expires⟩])

/-! ## `app/utils/images.py` and `app/api/routes/products.py` -/

/-- `pathlib.PurePath(name).stem`: the name with its suffix removed, where
the suffix starts at the last dot provided that dot is neither the first nor
the last character. -/
def pathStem (name : String) : String :=
  let cs := name.toList
  match cs.reverse.findIdx? (fun c => c == '.') with
  | none => name
  | some k =>
    let i := cs.length - 1 - k
    if 0 < i ∧ i < cs.length - 1 then ⟨cs.take i⟩ else name

/-- `delete_product_image(base_dir, product_id, filename)` over the product's
directory listing `fs`.  `unlink_err f` models `f.unlink()` raising an
OSError.  A present primary file whose unlink raises yields `false`; an
absent primary file is not a failure.  Then every file sharing the stem
(`glob("{stem}*")`) is unlinked with failures ignored, and the call returns
`true`. -/
def delete_product_image (fs : List String) (filename : String)
    (unlink_err : String → Bool) : Bool × List String :=
  let primary : Option (List String) :=
    if fs.contains filename then
      if unlink_err filename then none else some (fs.erase filename)
    else
      some fs
  match primary with
  | none => (false, fs)
  | some fs₁ =>
    let stem := pathStem filename
    (true, fs₁.filter (fun p => !(strStartsWith p stem && !unlink_err p)))

/-- A `products` row as the image routes read it, with the JSON-text
filename column (`image_filenames` or `image_filename`, read defensively)
already decoded to its list shape. -/
structure ProductImages where
  id : String
  product_id : String
  images : List String
deriving DecidableEq, Repr

/-- Response of `DELETE /api/products/{id}/images/{filename}`. -/
inductive DeleteImageResp where
  | ok (remaining : List String)
  | notFound (detail : String)
deriving DecidableEq, Repr

/-- `db.get_record("products", "id", pid) or db.get_record("products",
"product_id", pid)` over the image-carrying row shape. -/
def findProductImages (rows : List ProductImages) (pid : String) : Option ProductImages :=
  match rows.find? (fun r => r.id == pid) with
  | some r => some r
  | none => rows.find? (fun r => r.product_id == pid)

/-- `delete_product_image_route`: product lookup by `id` then `product_id`,
the image-service deletion, and on success removal of the filename from the
stored list (persisted by `id`).  Returns the response, the products table
and the directory listing after the request. -/
def delete_product_image_route (rows : List ProductImages) (fs : List String)
    (pid : String) (filename : String) (unlink_err : String → Bool) :
    DeleteImageResp × List ProductImages × List String :=
  match findProductImages rows pid with
  | none => (.notFound "Product not found", rows, fs)
  | some row =>
    match delete_product_image fs filename unlink_err with
    | (false, fs') => (.notFound "File not found or could not be deleted", rows, fs')
    | (true, fs') =>
      let remaining := row.images.filter (fun f => f != filename)
      let rows' := rows.map (fun r => if r.id == pid then { r with images := remaining } else r)
      (.ok remaining, rows', fs')

/-! ## Helper lemmas -/

/-- A supplied-and-matching or absent `expected_version` does not trip the
optimistic-lock check. -/
theorem versionMismatch_false {ev : Option Int} {v : Int} (h : ev = none ∨ ev = some v) :
    versionMismatch ev v = false := by
  rcases h with h | h <;> simp [versionMismatch, h]

/-- A supplied `expected_version` differing from the current version makes
`apply` raise `OptimisticLockError` before touching any field. -/
theorem apply_mismatch_aux (sm : StateMachine) (target : String) (actor : Option String)
    (meta : Option (List (String × String))) (ev : Int) (now : String)
    (hne : pyStrip target ≠ "") (hev : ev ≠ sm.version) :
    sm.apply target actor meta (some ev) now
      = (sm, .error (.optimisticLock "Version mismatch")) := by
  have hmm : versionMismatch (some ev) sm.version = true := by
    simp [versionMismatch, hev]
  simp [StateMachine.apply, hne, hmm]

/-- The transition endpoint surfaces the optimistic-lock failure as 409 and
performs no table write. -/
theorem transition_endpoint_conflict_aux (orders : List OrderRow) (order_id : String)
    (user : UserCtx) (payload_status : String) (meta : Option (List (String × String)))
    (ev : Int) (now : String) (row : OrderRow)
    (htrim : pyStrip payload_status = payload_status) (hne : payload_status ≠ "")
    (hfind : orders.find? (fun r => r.id == order_id) = some row)
    (hauth : user.is_admin = true ∨ row.user_id = user.username)
    (hev : ev ≠ row.version) :
    transition_order_status orders order_id user payload_status meta (some ev) now
      = (.err 409 "Version mismatch", orders) := by
  have hcond : (!user.is_admin && row.user_id != user.username) = false := by
    rcases hauth with h | h <;> simp [h]
  have happly := apply_mismatch_aux
    ⟨row.status, orderAllowedTransitions, row.version, row.status_history, [], []⟩
    payload_status (some user.username) meta ev now (by rw [htrim]; exact hne) hev
  simp [transition_order_status, htrim, hne, hfind, hcond, happly]

/-- A present primary file whose unlink raises makes `delete_product_image`
return `False` and leaves the directory unchanged. -/
theorem delete_image_fail_iff (fs : List String) (f : String) (u : String → Bool)
    (hmem : f ∈ fs) (herr : u f = true) :
    delete_product_image fs f u = (false, fs) := by
  unfold delete_product_image
  simp [hmem, herr]

/-- In every other case (in particular when the primary file is absent)
`delete_product_image` reports success. -/
theorem delete_image_ok_fst (fs : List String) (f : String) (u : String → Bool)
    (hno : ¬(f ∈ fs ∧ u f = true)) :
    (delete_product_image fs f u).1 = true := by
  unfold delete_product_image
  by_cases hm : f ∈ fs
  · have hu : u f = false := by
      by_contra huc
      exact hno ⟨hm, by simpa using huc⟩
    simp [hm, hu]
  · simp [hm]

/-- `Cart.add_item` on a list containing the product id rewrites exactly the
first matching item, bumping only its quantity. -/
theorem addToItems_first_match (pid title : String) (price : Rat) (qty : Int)
    (l : List CartItem) (h : ∃ it ∈ l, it.product_id = pid) :
    ∃ pre it post,
      l = pre ++ it :: post ∧
      (∀ x ∈ pre, x.product_id ≠ pid) ∧
      it.product_id = pid ∧
      addToItems pid title price qty l
        = pre ++ { it with quantity := it.quantity + qty } :: post := by
  induction l with
  | nil => simp at h
  | cons x xs ih =>
    by_cases hx : x.product_id = pid
    · exact ⟨[], x, xs, rfl, by simp, hx, by simp [addToItems, hx]⟩
    · have hxs : ∃ it ∈ xs, it.product_id = pid := by
        rcases h with ⟨it, hmem, hp⟩
        rcases List.mem_cons.mp hmem with rfl | hmem2
        · exact absurd hp hx
        · exact ⟨it, hmem2, hp⟩
      rcases ih hxs with ⟨pre, it, post, he, hpre, hp, heq⟩
      refine ⟨x :: pre, it, post, by rw [he]; rfl, ?_, hp, ?_⟩
      · intro y hy
        rcases List.mem_cons.mp hy with rfl | hy2
        · exact hx
        · exact hpre y hy2
      · simp [addToItems, hx, heq]

/-! ## Claim theorems -/

/-- C1: the claim says an insufficient-stock failure rolls back every stock
decrement and leaves every referenced product at its pre-request stock.  The
code's rollback loop replays `prev_stock` in reservation order, so when two
lines of one request reserve the same product and a later line fails, the
earlier snapshot is overwritten by the later one: with product A at stock 5
and B at stock 0, ordering A×2, A×1 and B×1 fails with invalid-input as the
claim says, but leaves A at stock 3 instead of its pre-request value 5. -/
theorem create_order_duplicate_rollback :
    create_order
        [⟨some "A", none, 10, 2⟩, ⟨some "A", none, 10, 1⟩, ⟨some "B", none, 5, 1⟩]
        [⟨"A", "", 5⟩, ⟨"B", "", 0⟩] "buyer" ""
      = .invalidInput "Insufficient stock for product B" [⟨"A", "", 3⟩, ⟨"B", "", 0⟩]
    ∧ ([⟨"A", "", 3⟩, ⟨"B", "", 0⟩] : List Product) ≠ [⟨"A", "", 5⟩, ⟨"B", "", 0⟩] := by
  decide

/-- C2: a successful `/refresh` with token `t` deletes the stored record for
`t`, returns a refresh token different from `t` (the freshly generated token
is distinct, which is the `hfresh` randomness assumption), and a second
`/refresh` presenting the same `t` fails unauthenticated (401) and leaves
the refresh-token table unchanged, issuing nothing. -/
theorem refresh_rotation_single_use (table : List RefreshRow) (t : String)
    (row : RefreshRow) (now : Int) (new_id new_token new_access : String)
    (new_expires : Int)
    (hne : t ≠ "")
    (hfind : table.find? (fun r => r.token == t) = some row)
    (hexp : is_refresh_expired row now = false)
    (huid : row.user_id ≠ "")
    (hfresh : new_token ≠ t) :
    (refresh table (some t) now new_id new_token new_access new_expires).1
        = .ok new_access new_token ∧
    new_token ≠ t ∧
    (∀ r ∈ (refresh table (some t) now new_id new_token new_access new_expires).2,
        r.token ≠ t) ∧
    (∀ (now₂ : Int) (id₂ tok₂ acc₂ : String) (exp₂ : Int),
        refresh (refresh table (some t) now new_id new_token new_access new_expires).2
            (some t) now₂ id₂ tok₂ acc₂ exp₂
          = (.unauthorized "Invalid refresh token",
             (refresh table (some t) now new_id new_token new_access new_expires).2)) := by
  have hout : refresh table (some t) now new_id new_token new_access new_expires
      = (.ok new_access new_token,
         table.filter (fun r => r.token != t)
           ++ [⟨new_id, new_token, row.user_id, some new_expires⟩]) := by
    simp [refresh, hne, hfind, hexp, huid]
  have hmemL : ∀ r ∈ (table.filter (fun r => r.token != t)
      ++ [⟨new_id, new_token, row.user_id, some new_expires⟩] : List RefreshRow),
      r.token ≠ t := by
    intro r hr
    rcases List.mem_append.mp hr with hr | hr
    · have := (List.mem_filter.mp hr).2
      simpa using this
    · rcases List.mem_singleton.mp hr with rfl
      simpa using hfresh
  have hnone : (table.filter (fun r => r.token != t)
      ++ [⟨new_id, new_token, row.user_id, some new_expires⟩] : List RefreshRow).find?
      (fun r => r.token == t) = none := by
    rw [List.find?_eq_none]
    intro r hr
    simpa using hmemL r hr
  rw [hout]
  refine ⟨rfl, hfresh, hmemL, ?_⟩
  intro now₂ id₂ tok₂ acc₂ exp₂
  simp [refresh, hne, hnone]

/-- C2 witness: a concrete single-row table rotated once; the consumed token
is gone and re-presenting it fails with 401 leaving the table unchanged. -/
theorem refresh_rotation_single_use_witness :
    (refresh [⟨"r1", "tokA", "u1", some 100⟩] (some "tokA") 50 "r2" "tokB" "acc" 200).1
        = .ok "acc" "tokB" ∧
    ("tokB" : String) ≠ "tokA" ∧
    (∀ r ∈ (refresh [⟨"r1", "tokA", "u1", some 100⟩] (some "tokA") 50 "r2" "tokB" "acc" 200).2,
        r.token ≠ "tokA") ∧
    (∀ (now₂ : Int) (id₂ tok₂ acc₂ : String) (exp₂ : Int),
        refresh (refresh [⟨"r1", "tokA", "u1", some 100⟩] (some "tokA") 50 "r2" "tokB" "acc" 200).2
            (some "tokA") now₂ id₂ tok₂ acc₂ exp₂
          = (.unauthorized "Invalid refresh token",
             (refresh [⟨"r1", "tokA", "u1", some 100⟩] (some "tokA") 50 "r2" "tokB" "acc" 200).2)) := by
  exact refresh_rotation_single_use _ "tokA" ⟨"r1", "tokA", "u1", some 100⟩ 50 "r2" "tokB"
    "acc" 200 (by decide) rfl rfl (by decide) (by decide)

/-- C3: when the current state admits the (well-formed: nonempty,
whitespace-free) target, the target differs from the current state, and the
supplied `expectedVersion` (if any) equals the current version, `apply`
succeeds, sets the state to the target, appends exactly the one history
entry `{from, to, at, actor, meta}` and increments the version by exactly 1
— for every machine, hence for arbitrary (also failing) hooks, whose
outcomes the code discards. -/
theorem sm_apply_valid_transition (sm : StateMachine) (target : String)
    (actor : Option String) (meta : Option (List (String × String)))
    (ev : Option Int) (now : String)
    (htrim : pyStrip target = target) (hne : target ≠ "")
    (hver : ev = none ∨ ev = some sm.version)
    (hdiff : target ≠ sm.state)
    (hcan : sm.can_transition target = true) :
    sm.apply target actor meta ev now =
      ({ sm with state := target,
                 history := sm.history ++ [⟨sm.state, target, now, actor, meta.getD []⟩],
                 version := sm.version + 1 },
       .ok ⟨target, sm.history ++ [⟨sm.state, target, now, actor, meta.getD []⟩],
            sm.version + 1⟩) := by
  simp [StateMachine.apply, htrim, hne, versionMismatch_false hver, hdiff, hcan]

/-- C3 witness: a `placed → paid` transition with a registered before-hook
that always fails still succeeds, appends one entry, and bumps the version
from 0 to 1. -/
theorem sm_apply_valid_transition_witness :
    (let sm : StateMachine := ⟨"placed", orderAllowedTransitions, 0, [],
        [(("placed", "paid"), fun _ => .error "hook failure")], []⟩
     sm.apply "paid" (some "alice") none (some 0) "2024-01-01 00:00:00"
       = ({ sm with state := "paid",
                    history := [⟨"placed", "paid", "2024-01-01 00:00:00", some "alice", []⟩],
                    version := 1 },
          .ok ⟨"paid", [⟨"placed", "paid", "2024-01-01 00:00:00", some "alice", []⟩], 1⟩)) := by
  exact sm_apply_valid_transition _ "paid" (some "alice") none (some 0) "2024-01-01 00:00:00"
    (by decide) (by decide) (Or.inr rfl) (by decide) (by decide)

/-- C4: supplying an `expectedVersion` different from the current version
makes `apply` fail with the optimistic-lock conflict and leaves the machine
exactly as it was, and through `POST /api/orders/{id}/transition` (with a
well-formed target status, an existing order and an authorized caller) the
failure surfaces as HTTP 409 with the orders table unchanged. -/
theorem optimistic_lock_conflict :
    (∀ (sm : StateMachine) (target : String) (actor : Option String)
        (meta : Option (List (String × String))) (ev : Int) (now : String),
        pyStrip target ≠ "" → ev ≠ sm.version →
        sm.apply target actor meta (some ev) now
          = (sm, .error (.optimisticLock "Version mismatch"))) ∧
    (∀ (orders : List OrderRow) (order_id : String) (user : UserCtx)
        (payload_status : String) (meta : Option (List (String × String)))
        (ev : Int) (now : String) (row : OrderRow),
        pyStrip payload_status = payload_status → payload_status ≠ "" →
        orders.find? (fun r => r.id == order_id) = some row →
        (user.is_admin = true ∨ row.user_id = user.username) →
        ev ≠ row.version →
        transition_order_status orders order_id user payload_status meta (some ev) now
          = (.err 409 "Version mismatch", orders)) :=
  ⟨fun sm target actor meta ev now hne hev =>
      apply_mismatch_aux sm target actor meta ev now hne hev,
   fun orders order_id user payload_status meta ev now row htrim hne hfind hauth hev =>
      transition_endpoint_conflict_aux orders order_id user payload_status meta ev now row
        htrim hne hfind hauth hev⟩

/-- C4 witness: a stale `expected_version` of 5 against version 0 is
rejected at the machine level and yields 409 with an unchanged table at the
endpoint level. -/
theorem optimistic_lock_conflict_witness :
    (let sm : StateMachine := ⟨"placed", orderAllowedTransitions, 0, [], [], []⟩
     sm.apply "paid" (some "u") none (some 5) "t0"
       = (sm, .error (.optimisticLock "Version mismatch"))) ∧
    transition_order_status [⟨"o1", "u", "placed", [], 0⟩] "o1" ⟨"u", false⟩ "paid"
        none (some 5) "t0"
      = (.err 409 "Version mismatch", [⟨"o1", "u", "placed", [], 0⟩]) :=
  ⟨optimistic_lock_conflict.1 _ "paid" (some "u") none 5 "t0" (by decide) (by decide),
   optimistic_lock_conflict.2 [⟨"o1", "u", "placed", [], 0⟩] "o1" ⟨"u", false⟩ "paid"
     none 5 "t0" ⟨"o1", "u", "placed", [], 0⟩ (by decide) (by decide) rfl
     (Or.inr rfl) (by decide)⟩

/-- C5 counterexample: with a user row for username "alice" already present,
registering again as "alice" (fresh email, all fields supplied) does not
fail with invalid-input — it creates a second row.  This refutes the claim
that an existing username/email makes `/register` fail 400 and leave the
users table unchanged. -/
theorem register_duplicate_creates_row :
    (let prior : UserRow := ⟨"id1", "alice", "a@x.com", "h1", "", false⟩
     let out := register [prior] (some "alice") (some "b@x.com") (some "pw")
        none false (fun s => s) "id2"
     prior.username = "alice" ∧
     out.1 = .ok ⟨"id2", "alice", "b@x.com", "pw", "", false⟩ ∧
     out.1 ≠ .invalidInput "username, email and password required" ∧
     out.2 = [prior, ⟨"id2", "alice", "b@x.com", "pw", "", false⟩]) := by
  exact ⟨rfl, rfl, by decide, rfl⟩

/-- C5 (amended): the handler performs no duplicate check at all — whenever
username, email and password are all supplied and non-empty, registration
succeeds and appends exactly one new row, even when the username or email
equals that of an existing user; 400 arises only from a missing field. -/
theorem register_no_duplicate_check (users : List UserRow) (u e p : String)
    (full_name : Option String) (is_admin : Bool) (hash_fn : String → String)
    (gen_id : String)
    (hu : u ≠ "") (he : e ≠ "") (hp : p ≠ "")
    (hdup : ∃ w ∈ users, w.username = u ∨ w.email = e) :
    register users (some u) (some e) (some p) full_name is_admin hash_fn gen_id
      = (.ok ⟨gen_id, u, e, hash_fn p, full_name.getD "", is_admin⟩,
         users ++ [⟨gen_id, u, e, hash_fn p, full_name.getD "", is_admin⟩]) := by
  simp [register, hu, he, hp]

/-- C5 witness: registering a duplicate "alice" against a one-row table
succeeds and the table grows to two rows. -/
theorem register_no_duplicate_check_witness :
    register [⟨"id1", "alice", "a@x.com", "h1", "", false⟩] (some "alice") (some "c@x.com")
        (some "pw2") (some "Alice B") false (fun s => s) "id3"
      = (.ok ⟨"id3", "alice", "c@x.com", "pw2", "Alice B", false⟩,
         [⟨"id1", "alice", "a@x.com", "h1", "", false⟩,
          ⟨"id3", "alice", "c@x.com", "pw2", "Alice B", false⟩]) := by
  exact register_no_duplicate_check _ "alice" "c@x.com" "pw2" (some "Alice B") false
    (fun s => s) "id3" (by decide) (by decide) (by decide) (by decide)

/-- C6: `processRefund` fails (`success=false`) exactly when the info
carries no transaction id, and otherwise always succeeds carrying the
freshly generated refund transaction id (settled against the spec-modelled
definition, since the function is absent from the source tree). -/
theorem process_refund_spec :
    (∀ (amount : Rat) (gen_tx : String),
        process_refund amount none gen_tx = ⟨false, none, amount⟩) ∧
    (∀ (amount : Rat) (tx gen_tx : String),
        process_refund amount (some tx) gen_tx = ⟨true, some gen_tx, amount⟩) :=
  ⟨fun _ _ => rfl, fun _ _ _ => rfl⟩

/-- C7: `processPayment` rejects an absent or non-positive amount with the
invalid-amount error; for positive amounts a `"card"` method is declined
with message "card declined" exactly when `card_last4` ends in '0' and
approved otherwise, `"offline"` is always approved and marked pending, and
any other type (including absent method) is approved. -/
theorem process_payment_spec :
    (∀ (m : Option PaymentMethod) (tx : String),
        process_payment none m tx = .error "invalid amount") ∧
    (∀ (a : Rat) (m : Option PaymentMethod) (tx : String), a ≤ 0 →
        process_payment (some a) m tx = .error "invalid amount") ∧
    (∀ (a : Rat) (pm : PaymentMethod) (tx : String), 0 < a →
        pm.pm_type = some "card" →
        process_payment (some a) (some pm) tx =
          (if endsWithChar (pm.card_last4.getD "") '0'
           then .ok ⟨false, tx, a, "card declined"⟩
           else .ok ⟨true, tx, a, "approved (mock)"⟩)) ∧
    (∀ (a : Rat) (pm : PaymentMethod) (tx : String), 0 < a →
        pm.pm_type = some "offline" →
        process_payment (some a) (some pm) tx = .ok ⟨true, tx, a, "marked pending (offline)"⟩) ∧
    (∀ (a : Rat) (pm : PaymentMethod) (tx : String) (ty : String), 0 < a →
        pm.pm_type = some ty → ty ≠ "card" → ty ≠ "offline" →
        process_payment (some a) (some pm) tx = .ok ⟨true, tx, a, "mock success"⟩) ∧
    (∀ (a : Rat) (tx : String), 0 < a →
        process_payment (some a) none tx = .ok ⟨true, tx, a, "mock success"⟩) := by
  refine ⟨fun m tx => rfl, ?_, ?_, ?_, ?_, ?_⟩
  · intro a m tx ha
    simp [process_payment, ha]
  · intro a pm tx ha hty
    simp [process_payment, not_le.mpr ha, hty]
  · intro a pm tx ha hty
    simp [process_payment, not_le.mpr ha, hty]
  · intro a pm tx ty ha hty hc ho
    simp [process_payment, not_le.mpr ha, hty, hc, ho]
  · intro a tx ha
    simp [process_payment, not_le.mpr ha]

/-- C7 witness: concrete calls covering every branch — missing amount, zero
amount, a declined card ending in '0', an approved card, an offline payment
marked pending, and a `"test"` method. -/
theorem process_payment_spec_witness :
    process_payment none (some ⟨some "card", some "4242"⟩) "tx0" = .error "invalid amount" ∧
    process_payment (some 0) none "tx0" = .error "invalid amount" ∧
    process_payment (some 250) (some ⟨some "card", some "1230"⟩) "tx1"
      = .ok ⟨false, "tx1", 250, "card declined"⟩ ∧
    process_payment (some 250) (some ⟨some "card", some "4242"⟩) "tx2"
      = .ok ⟨true, "tx2", 250, "approved (mock)"⟩ ∧
    process_payment (some 99) (some ⟨some "offline", none⟩) "tx3"
      = .ok ⟨true, "tx3", 99, "marked pending (offline)"⟩ ∧
    process_payment (some 10) (some ⟨some "test", some "4242"⟩) "tx4"
      = .ok ⟨true, "tx4", 10, "mock success"⟩ := by
  refine ⟨process_payment_spec.1 _ _, process_payment_spec.2.1 0 none "tx0" le_rfl,
    ?_, ?_, ?_, ?_⟩
  · have h := process_payment_spec.2.2.1 250 ⟨some "card", some "1230"⟩ "tx1"
      (by norm_num) rfl
    rw [h]
    rfl
  · have h := process_payment_spec.2.2.1 250 ⟨some "card", some "4242"⟩ "tx2"
      (by norm_num) rfl
    rw [h]
    rfl
  · exact process_payment_spec.2.2.2.1 99 ⟨some "offline", none⟩ "tx3" (by norm_num) rfl
  · exact process_payment_spec.2.2.2.2.1 10 ⟨some "test", some "4242"⟩ "tx4" "test"
      (by norm_num) rfl (by decide) (by decide)

/-- C8: applying the (well-formed) current state to itself, with a matching
or absent `expectedVersion`, is a successful no-op returning the current
state, history and version with the machine unchanged — with no requirement
that the state have outgoing edges in the allowed-transitions map. -/
theorem sm_apply_idempotent_noop (sm : StateMachine) (actor : Option String)
    (meta : Option (List (String × String))) (ev : Option Int) (now : String)
    (htrim : pyStrip sm.state = sm.state) (hne : sm.state ≠ "")
    (hver : ev = none ∨ ev = some sm.version) :
    sm.apply sm.state actor meta ev now = (sm, .ok ⟨sm.state, sm.history, sm.version⟩) := by
  simp [StateMachine.apply, htrim, hne, versionMismatch_false hver]

/-- C8 witness: re-applying the terminal state "delivered" (which has no
outgoing edges) with a matching expected version is a no-op. -/
theorem sm_apply_idempotent_noop_witness :
    (let sm : StateMachine := ⟨"delivered", orderAllowedTransitions, 3,
        [⟨"shipped", "delivered", "t0", some "u", []⟩], [], []⟩
     sm.apply "delivered" (some "u") none (some 3) "t1"
       = (sm, .ok ⟨"delivered", [⟨"shipped", "delivered", "t0", some "u", []⟩], 3⟩)) := by
  exact sm_apply_idempotent_noop _ (some "u") none (some 3) "t1"
    (by decide) (by decide) (Or.inr rfl)

/-- C9 counterexample: with the product present but the named file absent
from the directory, the delete-image route does not fail 404 — the image
service reports success for an absent primary file, so the route answers ok,
removes the filename from the stored list and returns the remainder.  This
refutes the claim that an absent file yields not-found. -/
theorem delete_absent_image_succeeds :
    (let out := delete_product_image_route [⟨"p1", "", ["a.jpg"]⟩] [] "p1" "a.jpg"
        (fun _ => false)
     out.1 = .ok [] ∧
     out.1 ≠ .notFound "File not found or could not be deleted" ∧
     out.2.1 = [⟨"p1", "", []⟩] ∧ out.2.2 = []) := by
  exact ⟨rfl, by decide, rfl, rfl⟩

/-- C9 (amended): for an existing product the route fails not-found exactly
when the image service reports failure, i.e. when the named file is present
and removing it throws; in every other case — in particular when the file is
absent — it succeeds, removes the filename from the product's stored list
and returns the remaining list. -/
theorem delete_image_route_spec (rows : List ProductImages) (fs : List String)
    (pid filename : String) (unlink_err : String → Bool) (row : ProductImages)
    (hfind : findProductImages rows pid = some row) :
    ((filename ∈ fs ∧ unlink_err filename = true) →
       delete_product_image_route rows fs pid filename unlink_err
         = (.notFound "File not found or could not be deleted", rows, fs)) ∧
    (¬(filename ∈ fs ∧ unlink_err filename = true) →
       (delete_product_image_route rows fs pid filename unlink_err).1
           = .ok (row.images.filter (fun f => f != filename)) ∧
       (delete_product_image_route rows fs pid filename unlink_err).2.1
           = rows.map (fun r => if r.id == pid
               then { r with images := row.images.filter (fun f => f != filename) }
               else r)) := by
  constructor
  · rintro ⟨hmem, herr⟩
    have hdel := delete_image_fail_iff fs filename unlink_err hmem herr
    simp [delete_product_image_route, hfind, hdel]
  · intro hno
    have hfst := delete_image_ok_fst fs filename unlink_err hno
    rcases hdel : delete_product_image fs filename unlink_err with ⟨b, fs2⟩
    rw [hdel] at hfst
    simp at hfst
    subst hfst
    constructor
    · simp [delete_product_image_route, hfind, hdel]
    · simp [delete_product_image_route, hfind, hdel]

/-- C9 witness: a present file whose removal throws yields 404 with nothing
changed. -/
theorem delete_image_route_spec_witness :
    delete_product_image_route [⟨"p1", "", ["a.jpg", "b.jpg"]⟩] ["a.jpg"] "p1" "a.jpg"
        (fun _ => true)
      = (.notFound "File not found or could not be deleted",
         [⟨"p1", "", ["a.jpg", "b.jpg"]⟩], ["a.jpg"]) := by
  exact (delete_image_route_spec [⟨"p1", "", ["a.jpg", "b.jpg"]⟩] ["a.jpg"] "p1" "a.jpg"
    (fun _ => true) ⟨"p1", "", ["a.jpg", "b.jpg"]⟩ rfl).1 ⟨by decide, rfl⟩

/-- C10: adding an item whose `product_id` already occurs in the cart
changes only the first matching item's `quantity` (increased by the
requested amount): its `title` and `unit_price` keep their previous values,
the call's `title` and `unit_price` arguments are discarded (the
decomposition below is the same for every value of those arguments), every
other item is unchanged, and the cart's `id`, `user_id` and `updated_at`
are untouched. -/
theorem cart_add_item_frame (c : Cart) (pid title : String) (price : Rat) (qty : Int)
    (h : ∃ it ∈ c.items, it.product_id = pid) :
    ∃ pre it post,
      c.items = pre ++ it :: post ∧
      (∀ x ∈ pre, x.product_id ≠ pid) ∧
      it.product_id = pid ∧
      c.add_item pid title price qty
        = { c with items := pre ++ { it with quantity := it.quantity + qty } :: post } := by
  rcases addToItems_first_match pid title price qty c.items h with
    ⟨pre, it, post, he, hpre, hp, heq⟩
  exact ⟨pre, it, post, he, hpre, hp, by simp [Cart.add_item, heq]⟩

/-- C10 witness: adding 3 more of "p2" to a two-item cart bumps only that
item's quantity; the new title and price arguments are ignored. -/
theorem cart_add_item_frame_witness :
    (let c : Cart := ⟨some "c1", some "u1",
        [⟨"p1", some "Chair", 10, 1, none⟩, ⟨"p2", none, 5, 2, none⟩], none⟩
     ∃ pre it post,
       c.items = pre ++ it :: post ∧
       (∀ x ∈ pre, x.product_id ≠ "p2") ∧
       it.product_id = "p2" ∧
       c.add_item "p2" "Ignored" 99 3
         = { c with items := pre ++ { it with quantity := it.quantity + 3 } :: post }) := by
  exact cart_add_item_frame _ "p2" "Ignored" 99 3 (by decide)
